import Mathlib

/-!
Shallow embedding of the spreadsheet-to-record normalizer
`parse_excel_to_json` from `src/core/utils.py` of the scrappingtooltesting
repository, together with the truthiness test the API route applies to its
result (`get_mermasventas_data` in `src/routes/mermasventas.py`).

Modelling conventions:
* A spreadsheet cell value is a `Value`: `na` models an empty cell / pandas
  NaN (including a float NaN, which `pd.isna` treats as missing); `int` a
  Python int; `float` a finite non-NaN Python float, represented by the pair
  of its `int()` truncation and its `str()` representation; `str` a Python
  str.  Infinities cannot arise from xlsx numeric cells and are not
  modelled.  Python ints are unbounded, so `Int` is exact.
* `readCell` models what `pd.read_excel` does to one cell: a string cell
  that exactly matches one of pandas' default NA tokens becomes NaN, and a
  cell of a column listed in the `dtype=str` table is converted to its
  `str()` form.  The dtype table is keyed by the raw (unstripped) header
  name, while the per-cell formatting rules later match on the stripped
  header name — the order the Python code performs those two steps in.
* Python `str.strip()` / `.lower()` are modelled by `pyStrip` / `pyLower`
  below; both agree with Python on the ASCII inputs the rules compare
  against.
-/

namespace ScrapTool

/-- Python's default `str.strip()` whitespace, restricted to the ASCII
whitespace characters that can occur in this data. -/
def isPySpace (c : Char) : Bool :=
  c == ' ' || c == '\t' || c == '\n' || c == '\r' || c == '\x0b' || c == '\x0c'

/-- Python `s.strip()`: remove leading and trailing whitespace. -/
def pyStrip (s : String) : String :=
  String.mk (((s.toList.dropWhile isPySpace).reverse.dropWhile isPySpace).reverse)

/-- Python `s.lower()` on the ASCII range. -/
def pyLower (s : String) : String :=
  String.mk (s.toList.map Char.toLower)

/-- A cell value as it exists in a pandas DataFrame read from the xlsx. -/
inductive Value where
  | na : Value
  | int : Int → Value
  | float : Int → String → Value
  | str : String → Value
  deriving DecidableEq

/-- Python `str(value)` on a cell value; `str` of the NaN sentinel is
the string `"nan"`, `str` of a float is its carried representation. -/
def pyStr : Value → String
  | Value.na => "nan"
  | Value.int n => toString n
  | Value.float _ r => r
  | Value.str s => s

/-- `pd.isna(value)`: true exactly on the missing-value sentinel. -/
def pyIsNa : Value → Bool
  | Value.na => true
  | _ => false

/-- pandas' default NA tokens (`pandas._libs.parsers.STR_NA_VALUES`): a
string cell exactly equal to one of these is read as NaN by
`pd.read_excel` with default `keep_default_na=True`. -/
def defaultNaValues : List String :=
  ["", "#N/A", "#N/A N/A", "#NA", "-1.#IND", "-1.#QNAN", "-NaN", "-nan",
   "1.#IND", "1.#QNAN", "<NA>", "N/A", "NA", "NULL", "NaN", "None",
   "n/a", "nan", "null"]

/-- After a leading digit of a Python int literal: digits with single
underscores allowed between digits only. -/
def digitTail : List Char → Bool
  | [] => true
  | c :: rest =>
    if c == '_' then
      match rest with
      | [] => false
      | d :: rest2 => d.isDigit && digitTail rest2
    else c.isDigit && digitTail rest

/-- A nonempty ASCII digit run with single underscores between digits —
the body accepted by Python `int(str)` after sign and whitespace. -/
def digitsOk : List Char → Bool
  | [] => false
  | c :: rest => c.isDigit && digitTail rest

/-- Numeric value of a digit list, underscores removed. -/
def digitsToNat (cs : List Char) : Nat :=
  (cs.filter (fun c => c ≠ '_')).foldl (fun a c => a * 10 + (c.toNat - '0'.toNat)) 0

/-- Python `int(s)` on a str: surrounding whitespace stripped, optional
sign, then digits (single underscores between digits allowed); `none`
models the `ValueError` raised otherwise.  (Non-ASCII digit forms, which
Python would also accept, do not arise from this data.) -/
def pyIntOfString (s : String) : Option Int :=
  match (pyStrip s).toList with
  | [] => none
  | c :: rest =>
    if c == '-' then
      if digitsOk rest then some (-(Int.ofNat (digitsToNat rest))) else none
    else if c == '+' then
      if digitsOk rest then some (Int.ofNat (digitsToNat rest)) else none
    else if digitsOk (c :: rest) then some (Int.ofNat (digitsToNat (c :: rest)))
    else none

/-- Left-pad a string with zeros to width `w` (no truncation). -/
def zeroPad (w : Nat) (s : String) : String :=
  String.mk (List.replicate (w - s.length) '0') ++ s

/-- Python `f-string` formatting with format spec `018d`: zero-pad to a
total width of 18, the sign included in the width. -/
def pad18 (n : Int) : String :=
  if n < 0 then "-" ++ zeroPad 17 (toString (-n)) else zeroPad 18 (toString n)

/-- The `string_columns` dtype table handed to `pd.read_excel`:
`Artículo` always; under `mermasventas` also `Artículo ID`. -/
def stringColumns (report_type : Option String) : List String :=
  if report_type == some "mermasventas" then ["Artículo", "Artículo ID"]
  else ["Artículo"]

/-- What `pd.read_excel` leaves in the DataFrame for one cell: default NA
tokens become NaN; in a `dtype=str` column a numeric cell is converted to
its `str()` form (NaN stays NaN). -/
def readCell (forceStr : Bool) (v : Value) : Value :=
  match v with
  | Value.na => Value.na
  | Value.str s => if s ∈ defaultNaValues then Value.na else Value.str s
  | Value.int n => if forceStr then Value.str (toString n) else Value.int n
  | Value.float t r => if forceStr then Value.str r else Value.float t r

/-- One raw data row as read into the DataFrame: each cell is paired with
its raw header name to decide whether the `dtype=str` table applies. -/
def readRow (report_type : Option String) (header : List String)
    (row : List Value) : List Value :=
  (header.zip row).map (fun hv => readCell ((stringColumns report_type).contains hv.1) hv.2)

/-- `str(first_row.iloc[0]).strip().lower() if len(first_row) > 0 else ""`:
the token the total-row check compares against `'total'`. -/
def firstCellToken (row : List Value) : String :=
  match row with
  | [] => ""
  | v :: _ => pyLower (pyStrip (pyStr v))

/-- Lines 46–54 of `utils.py`: if the first data row's first cell, as
`str(...).strip().lower()`, is exactly `"total"`, drop that row (only). -/
def dropTotal (rows : List (List Value)) : List (List Value) :=
  match rows with
  | [] => []
  | r :: rest => if firstCellToken r == "total" then rest else r :: rest

/-- Lines 68–95 of `utils.py`: the per-cell formatting rule, keyed on the
stripped column name and the report type. -/
def transformCell (column : String) (report_type : Option String)
    (value : Value) : Value :=
  if pyIsNa value || value == Value.str "nan" then Value.na
  else if column == "Artículo" then Value.str (pyStrip (pyStr value))
  else if column == "Artículo ID" && report_type == some "mermasventas" then
    match value with
    | Value.int n => Value.str (pad18 n)
    | Value.float t _ => Value.str (pad18 t)
    | Value.str s =>
      match pyIntOfString s with
      | some m => Value.str (pad18 m)
      | none => Value.str (pyStrip s)
    | Value.na => Value.na
  else
    match value with
    | Value.int n => Value.int n
    | Value.float t r => Value.float t r
    | Value.str s => Value.str (pyStrip s)
    | Value.na => Value.na

/-- One emitted record: a Python dict modelled as its insertion-ordered
key/value list (faithful to the dict when the keys are distinct). -/
abbrev Record := List (String × Value)

/-- One record of the loop body: `row_dict` starts with `"n": index + 1`
and then gets one entry per (stripped) column. -/
def mkRecord (report_type : Option String) (cols : List String) (i : Nat)
    (row : List Value) : Record :=
  ("n", Value.int ((i : Int) + 1)) ::
    (cols.zip row).map (fun cv => (cv.1, transformCell cv.1 report_type cv.2))

/-- The `for index, row in df.iterrows()` loop, with `index` running
`i, i+1, ...` (after `reset_index` the DataFrame index is 0-based). -/
def convertRows (report_type : Option String) (cols : List String) :
    Nat → List (List Value) → List Record
  | _, [] => []
  | i, row :: rest =>
    mkRecord report_type cols i row :: convertRows report_type cols (i + 1) rest

/-- The raw sheet from the header row on: row index 2 of the xlsx supplies
`header`; the rows after it are `rows`. -/
structure Sheet where
  header : List String
  rows : List (List Value)

/-- The successful body of `parse_excel_to_json`: read with the dtype
table, strip column names, drop a leading Total row, then number and
format the remaining rows. -/
def convertSheet (report_type : Option String) (sheet : Sheet) : List Record :=
  let cols := sheet.header.map pyStrip
  let dfRows := sheet.rows.map (readRow report_type sheet.header)
  convertRows report_type cols 0 (dropTotal dfRows)

/-- The full fate of one raw cell of column `rawCol` (raw, unstripped
header): the read-time conversion followed by the loop's formatting rule
keyed on the stripped name. -/
def processCell (report_type : Option String) (rawCol : String)
    (v : Value) : Value :=
  transformCell (pyStrip rawCol) report_type
    (readCell ((stringColumns report_type).contains rawCol) v)

/-- The input file as `parse_excel_to_json` can observe it: missing
(`FileNotFoundError`), unreadable by pandas (any other exception during
the read), or successfully read into a sheet. -/
inductive ExcelFile where
  | missing : ExcelFile
  | corrupt : ExcelFile
  | ok : Sheet → ExcelFile

/-- `parse_excel_to_json(excel_file_path, output_json_path, report_type)`
(lines 7–117 of `utils.py`).  `writeFails` models whether the
`open`/`json.dump` at the end raises; that exception is caught by the
same generic `except Exception` handler as a parse error, so the function
returns `None` and the computed records are lost. -/
def parse_excel_to_json (file : ExcelFile) (output_json_path : Option String)
    (report_type : Option String) (writeFails : Bool) : Option (List Record) :=
  match file with
  | ExcelFile.missing => none
  | ExcelFile.corrupt => none
  | ExcelFile.ok sheet =>
    let json_data := convertSheet report_type sheet
    match output_json_path with
    | some _ => if writeFails then none else some json_data
    | none => some json_data

/-- Python truthiness of the value `parse_excel_to_json` returns: `None`
and the empty list are both falsy. -/
def pyTruthy : Option (List Record) → Bool
  | none => false
  | some l => !l.isEmpty

/-- `if not json_data: raise HTTPException(status_code=500, ...)` in
`get_mermasventas_data` (lines 220–221 of `src/routes/mermasventas.py`):
the route replies with an error exactly when the result is falsy. -/
def routeTreatsAsError (r : Option (List Record)) : Bool := !pyTruthy r

/-! ## Structural lemmas about the conversion loop -/

lemma convertRows_length (rt : Option String) (cols : List String) :
    ∀ (i : Nat) (rows : List (List Value)),
      (convertRows rt cols i rows).length = rows.length := by
  intro i rows
  induction rows generalizing i with
  | nil => rfl
  | cons r rs ih => simp [convertRows, ih]

lemma convertRows_map_head (rt : Option String) (cols : List String) :
    ∀ (i : Nat) (rows : List (List Value)),
      (convertRows rt cols i rows).map List.head? =
        (List.range rows.length).map
          (fun (j : Nat) => some (("n", Value.int ((i : Int) + (j : Int) + 1)))) := by
  intro i rows
  induction rows generalizing i with
  | nil => rfl
  | cons r rs ih =>
    simp only [convertRows, List.map_cons, mkRecord, List.head?_cons, ih (i + 1),
      List.length_cons, List.range_succ_eq_map, List.map_map]
    congr 1
    simp only [List.map_inj_left, Function.comp_apply, Option.some.injEq,
      Prod.mk.injEq, Value.int.injEq, true_and]
    intro a ha
    omega

lemma mem_convertRows {rt : Option String} {cols : List String} {rec : Record} :
    ∀ {i : Nat} {rows : List (List Value)}, rec ∈ convertRows rt cols i rows →
      ∃ j row, row ∈ rows ∧ rec = mkRecord rt cols j row := by
  intro i rows
  induction rows generalizing i with
  | nil => intro h; simp [convertRows] at h
  | cons r rs ih =>
    intro h
    simp only [convertRows, List.mem_cons] at h
    rcases h with h | h
    · exact ⟨i, r, List.mem_cons_self r rs, h⟩
    · obtain ⟨j, row, hm, he⟩ := ih h
      exact ⟨j, row, List.mem_cons_of_mem r hm, he⟩

lemma mem_dropTotal {row : List Value} {rows : List (List Value)}
    (h : row ∈ dropTotal rows) : row ∈ rows := by
  cases rows with
  | nil => simp [dropTotal] at h
  | cons r rest =>
    simp only [dropTotal] at h
    split at h
    · exact List.mem_cons_of_mem r h
    · exact h

lemma readRow_length (rt : Option String) (header : List String)
    (row : List Value) :
    (readRow rt header row).length = min header.length row.length := by
  simp [readRow]

lemma stringColumns_of_ne {rt : Option String} (h : rt ≠ some "mermasventas") :
    stringColumns rt = ["Artículo"] := by
  have hb : (rt == some "mermasventas") = false := beq_eq_false_iff_ne.mpr h
  simp [stringColumns, hb]

lemma transformCell_of_ne {rt : Option String} (h : rt ≠ some "mermasventas")
    (c : String) (v : Value) :
    transformCell c rt v = transformCell c none v := by
  have hb : (rt == some "mermasventas") = false := beq_eq_false_iff_ne.mpr h
  have hb2 : ((none : Option String) == some "mermasventas") = false := rfl
  simp only [transformCell, hb, hb2, Bool.and_false]

lemma readRow_of_ne {rt : Option String} (h : rt ≠ some "mermasventas")
    (header : List String) (row : List Value) :
    readRow rt header row = readRow none header row := by
  unfold readRow
  rw [stringColumns_of_ne h]
  rfl

lemma convertRows_of_ne {rt : Option String} (h : rt ≠ some "mermasventas")
    (cols : List String) :
    ∀ (i : Nat) (rows : List (List Value)),
      convertRows rt cols i rows = convertRows none cols i rows := by
  intro i rows
  induction rows generalizing i with
  | nil => rfl
  | cons r rs ih =>
    simp only [convertRows, ih (i + 1), List.cons.injEq, and_true]
    simp only [mkRecord, List.cons.injEq, true_and]
    exact List.map_congr_left fun cv _ => by rw [transformCell_of_ne h]

lemma transformCell_articulo (rt : Option String) (v : Value) :
    transformCell "Artículo" rt v = Value.na ∨
      transformCell "Artículo" rt v = Value.str (pyStrip (pyStr v)) := by
  unfold transformCell
  split
  · exact Or.inl rfl
  · simp


/-! ## Decimal-rendering facts: Python `int(str(n)) == n` for the model -/

lemma digitChar_isDigit {k : Nat} (h : k < 10) : (Nat.digitChar k).isDigit = true := by
  interval_cases k <;> decide

lemma digitChar_val {k : Nat} (h : k < 10) : (Nat.digitChar k).toNat - '0'.toNat = k := by
  interval_cases k <;> decide

lemma toDigitsCore_spec :
    ∀ (f n : Nat) (ds : List Char), 0 < f → n < 10 ^ f →
      ∃ cs : List Char,
        Nat.toDigitsCore 10 f n ds = cs ++ ds ∧ cs ≠ [] ∧
          (∀ c ∈ cs, c.isDigit = true) ∧
          cs.foldl (fun a c => a * 10 + (c.toNat - '0'.toNat)) 0 = n := by
  intro f
  induction f with
  | zero => intro n ds h0; exact absurd h0 (lt_irrefl 0)
  | succ f ih =>
    intro n ds _ hlt
    have hmod : n % 10 < 10 := Nat.mod_lt _ (by norm_num)
    by_cases hdiv : n / 10 = 0
    · refine ⟨[Nat.digitChar (n % 10)], ?_, by simp, ?_, ?_⟩
      · simp [Nat.toDigitsCore, hdiv]
      · intro c hc
        rw [List.mem_singleton] at hc
        subst hc
        exact digitChar_isDigit hmod
      · have hn10 : n < 10 := (Nat.div_eq_zero_iff (by norm_num)).mp hdiv
        have hv := digitChar_val hn10
        simp only [List.foldl, Nat.mod_eq_of_lt hn10]
        omega
    · have hf : 0 < f := by
        rcases Nat.eq_zero_or_pos f with h0 | h0
        · subst h0
          rw [pow_one] at hlt
          exact absurd (Nat.div_eq_of_lt hlt) hdiv
        · exact h0
      have hlt' : n / 10 < 10 ^ f := Nat.nat_repr_len_aux n 10 f (by norm_num) hlt
      obtain ⟨cs', heq, hne, hdig, hval⟩ :=
        ih (n / 10) (Nat.digitChar (n % 10) :: ds) hf hlt'
      refine ⟨cs' ++ [Nat.digitChar (n % 10)], ?_, by simp, ?_, ?_⟩
      · rw [List.append_assoc, List.singleton_append]
        rw [← heq]
        simp [Nat.toDigitsCore, hdiv]
      · intro c hc
        rcases List.mem_append.mp hc with h | h
        · exact hdig c h
        · rw [List.mem_singleton] at h
          subst h
          exact digitChar_isDigit hmod
      · rw [List.foldl_append, hval]
        simp only [List.foldl, digitChar_val hmod]
        omega

lemma toDigits_spec (m : Nat) :
    ∃ cs : List Char,
      Nat.toDigits 10 m = cs ∧ cs ≠ [] ∧ (∀ c ∈ cs, c.isDigit = true) ∧
        cs.foldl (fun a c => a * 10 + (c.toNat - '0'.toNat)) 0 = m := by
  have hm : m < 10 ^ (m + 1) :=
    lt_of_lt_of_le (Nat.lt_pow_self (by norm_num) m)
      (Nat.pow_le_pow_right (by norm_num) (Nat.le_succ m))
  obtain ⟨cs, heq, hne, hdig, hval⟩ :=
    toDigitsCore_spec (m + 1) m [] (Nat.succ_pos m) hm
  exact ⟨cs, by simpa [Nat.toDigits] using heq, hne, hdig, hval⟩


lemma digit_ne_char {c x : Char} (h : c.isDigit = true) (hx : x.isDigit = false) :
    (c == x) = false := by
  rcases Bool.eq_false_or_eq_true (c == x) with h0 | h0
  · rw [beq_iff_eq] at h0
    subst h0
    rw [h] at hx
    exact absurd hx (by decide)
  · exact h0

lemma digitTail_of_digits :
    ∀ {cs : List Char}, (∀ c ∈ cs, c.isDigit = true) → digitTail cs = true := by
  intro cs
  induction cs with
  | nil => intro _; rfl
  | cons c rest ih =>
    intro h
    have hc : c.isDigit = true := h c (List.mem_cons_self c rest)
    have hne : (c == '_') = false := digit_ne_char hc (by decide)
    unfold digitTail
    simp [hne, hc, ih fun d hd => h d (List.mem_cons_of_mem c hd)]

lemma digitsOk_of_digits {cs : List Char} (hne : cs ≠ [])
    (h : ∀ c ∈ cs, c.isDigit = true) : digitsOk cs = true := by
  cases cs with
  | nil => exact absurd rfl hne
  | cons c rest =>
    simp [digitsOk, h c (List.mem_cons_self c rest),
      digitTail_of_digits fun d hd => h d (List.mem_cons_of_mem c hd)]

lemma digitsToNat_of_digits {cs : List Char} (h : ∀ c ∈ cs, c.isDigit = true) :
    digitsToNat cs = cs.foldl (fun a c => a * 10 + (c.toNat - '0'.toNat)) 0 := by
  unfold digitsToNat
  congr 1
  apply List.filter_eq_self.mpr
  intro c hc
  have hd := h c hc
  have : (c == '_') = false := digit_ne_char hd (by decide)
  simp only [ne_eq, decide_eq_true_eq]
  intro he
  subst he
  simp at this

lemma isPySpace_of_digit {c : Char} (h : c.isDigit = true) : isPySpace c = false := by
  rcases Bool.eq_false_or_eq_true (isPySpace c) with h0 | h0
  · exfalso
    simp only [isPySpace, Bool.or_eq_true, beq_iff_eq] at h0
    rcases h0 with ((((h0 | h0) | h0) | h0) | h0) | h0 <;> subst h0 <;>
      exact absurd h (by decide)
  · exact h0

lemma dropWhile_eq_self_of_none {p : Char → Bool} :
    ∀ {l : List Char}, (∀ c ∈ l, p c = false) → l.dropWhile p = l := by
  intro l
  cases l with
  | nil => intro _; rfl
  | cons c rest =>
    intro h
    simp [List.dropWhile_cons, h c (List.mem_cons_self c rest)]

lemma pyStrip_of_no_space {s : String} (h : ∀ c ∈ s.toList, isPySpace c = false) :
    pyStrip s = s := by
  obtain ⟨cs⟩ := s
  unfold pyStrip
  have h1 : String.toList (String.mk cs) = cs := rfl
  rw [h1] at h ⊢
  rw [dropWhile_eq_self_of_none h,
    dropWhile_eq_self_of_none fun c hc => h c (List.mem_reverse.mp hc),
    List.reverse_reverse]

lemma pyIntOfString_of_digits {s : String} (hne : s.toList ≠ [])
    (h : ∀ c ∈ s.toList, c.isDigit = true) :
    pyIntOfString s = some (Int.ofNat (digitsToNat s.toList)) := by
  unfold pyIntOfString
  rw [pyStrip_of_no_space fun c hc => isPySpace_of_digit (h c hc)]
  rcases hcs : s.toList with _ | ⟨c, rest⟩
  · exact absurd hcs hne
  · have hc : c.isDigit = true := h c (hcs ▸ List.mem_cons_self c rest)
    have hrest : ∀ d ∈ rest, d.isDigit = true :=
      fun d hd => h d (hcs ▸ List.mem_cons_of_mem c hd)
    simp only [digit_ne_char hc (show ('-' : Char).isDigit = false by decide),
      digit_ne_char hc (show ('+' : Char).isDigit = false by decide),
      Bool.false_eq_true, if_false,
      digitsOk_of_digits (List.cons_ne_nil c rest) (hcs ▸ h), if_true]

lemma natRepr_toList_spec (m : Nat) :
    (Nat.repr m).toList ≠ [] ∧ (∀ c ∈ (Nat.repr m).toList, c.isDigit = true) ∧
      digitsToNat ((Nat.repr m).toList) = m := by
  obtain ⟨cs, heq, hne, hdig, hval⟩ := toDigits_spec m
  have h1 : (Nat.repr m).toList = cs := by
    simp [Nat.repr, heq, List.asString]
  rw [h1]
  exact ⟨hne, hdig, by rw [digitsToNat_of_digits hdig, hval]⟩

/-- Python round-trip: `int(str(n)) == n` in the model. -/
lemma pyIntOfString_toString (n : Int) : pyIntOfString (toString n) = some n := by
  cases n with
  | ofNat m =>
    obtain ⟨hne, hdig, hval⟩ := natRepr_toList_spec m
    have hts : toString (Int.ofNat m) = Nat.repr m := rfl
    rw [hts, pyIntOfString_of_digits hne hdig, hval]
  | negSucc m =>
    obtain ⟨hne, hdig, hval⟩ := natRepr_toList_spec (m + 1)
    have hts : toString (Int.negSucc m) = "-" ++ Nat.repr (m + 1) := rfl
    have hlist : ("-" ++ Nat.repr (m + 1)).toList = '-' :: (Nat.repr (m + 1)).toList := by
      simp [String.toList]
    have hsp : ∀ c ∈ ("-" ++ Nat.repr (m + 1)).toList, isPySpace c = false := by
      intro c hc
      rw [hlist] at hc
      rcases List.mem_cons.mp hc with rfl | hc
      · decide
      · exact isPySpace_of_digit (hdig c hc)
    rw [hts]
    unfold pyIntOfString
    rw [pyStrip_of_no_space hsp, hlist]
    simp only [beq_self_eq_true, if_true, digitsOk_of_digits hne hdig, hval]
    congr 1

lemma toString_int_ne_nan (n : Int) : toString n ≠ "nan" := by
  intro h
  have hrt := pyIntOfString_toString n
  rw [h, show pyIntOfString "nan" = none from by decide] at hrt
  cases hrt

lemma str_beq_nan_false {s : String} (h : s ≠ "nan") :
    (Value.str s == Value.str "nan") = false := by
  rcases Bool.eq_false_or_eq_true (Value.str s == Value.str "nan") with h0 | h0
  · rw [beq_iff_eq] at h0
    exact absurd (Value.str.inj h0) h
  · exact h0

lemma transformCell_str_cases (col : String) (rt : Option String) (s : String) :
    transformCell col rt (Value.str s) = Value.na ∨
      transformCell col rt (Value.str s) = Value.str (pyStrip s) ∨
      ∃ m : Int, transformCell col rt (Value.str s) = Value.str (pad18 m) := by
  unfold transformCell
  split
  · exact Or.inl rfl
  · split
    · exact Or.inr (Or.inl rfl)
    · split
      · rcases hpi : pyIntOfString s with _ | m
        · refine Or.inr (Or.inl ?_)
          simp [hpi]
        · refine Or.inr (Or.inr ⟨m, ?_⟩)
          simp [hpi]
      · exact Or.inr (Or.inl rfl)

lemma transformCell_mermas_id_str (s : String) (h : s ≠ "nan") :
    transformCell "Artículo ID" (some "mermasventas") (Value.str s) =
      (match pyIntOfString s with
        | some m => Value.str (pad18 m)
        | none => Value.str (pyStrip s)) := by
  unfold transformCell
  simp only [pyIsNa, Bool.false_or, str_beq_nan_false h, Bool.false_eq_true, if_false,
    show (("Artículo ID" : String) == "Artículo") = false from by decide,
    show (("Artículo ID" : String) == "Artículo ID") = true from by decide,
    show ((some "mermasventas" : Option String) == some "mermasventas") = true from by decide,
    Bool.and_self, if_true]

/-! ## Claims -/

/-- Claim C1, counterexample: for a one-row sheet with an output path, a
failing JSON write makes `parse_excel_to_json` return `None`, even though
the in-memory record list had been computed and is nonempty — the
persistence failure does discard the computed records. -/
theorem c1_persist_failure_cex :
    parse_excel_to_json (ExcelFile.ok ⟨["Día"], [[Value.str "Lunes"]]⟩)
        (some "out.json") none true = none ∧
      convertSheet none ⟨["Día"], [[Value.str "Lunes"]]⟩ =
        [[("n", Value.int 1), ("Día", Value.str "Lunes")]] := by
  exact ⟨rfl, by decide⟩

/-- Claim C1, amended: when an output path is supplied and the write
fails, the exception is caught by the generic handler and
`parse_excel_to_json` returns `None` — the already-computed record
sequence is discarded, and there is no distinct `PersistError`.  Only
when the write succeeds are the computed records returned. -/
theorem c1_persist_failure_amended :
    (∀ (sheet : Sheet) (path : String) (rt : Option String),
        parse_excel_to_json (ExcelFile.ok sheet) (some path) rt true = none) ∧
      (∀ (sheet : Sheet) (path : String) (rt : Option String),
        parse_excel_to_json (ExcelFile.ok sheet) (some path) rt false =
          some (convertSheet rt sheet)) :=
  ⟨fun _ _ _ => rfl, fun _ _ _ => rfl⟩

/-- Claim C2, counterexample: the failure returned for a missing input
file is the very same value (`None`) as the failure returned for an
unreadable/corrupt file — the two failure kinds are not mutually
distinguishable and carry no underlying cause. -/
theorem c2_failure_typing_cex :
    parse_excel_to_json ExcelFile.missing none none false =
        parse_excel_to_json ExcelFile.corrupt none none false ∧
      parse_excel_to_json ExcelFile.missing none none false = none :=
  ⟨rfl, rfl⟩

/-- Claim C2, amended: a nonexistent input path yields the failure value
`None` (never a crash and never an empty-success result), and any
read/parse error on an existing file also yields `None`; no record list,
partial or otherwise, is returned on either path — but the two failures
are the same untyped `None`, not distinguishable and carrying no cause. -/
theorem c2_failure_typing_amended :
    (∀ (p : Option String) (rt : Option String) (w : Bool),
        parse_excel_to_json ExcelFile.missing p rt w = none) ∧
      (∀ (p : Option String) (rt : Option String) (w : Bool),
        parse_excel_to_json ExcelFile.corrupt p rt w = none) ∧
      (∀ (p : Option String) (rt : Option String) (w : Bool),
        (parse_excel_to_json ExcelFile.missing p rt w).isSome = false) :=
  ⟨fun _ _ _ => rfl, fun _ _ _ => rfl, fun _ _ _ => rfl⟩

/-- Claim C3, counterexample: under report kind `'mermasventas'`, a
non-null `Artículo ID` cell holding the float `45.7` is emitted as the
4-character string `"45.7"` — not integer-coerced, fractional part kept,
no padding to 18 — because the exact raw header `"Artículo ID"` makes the
string dtype apply at read time, so the value reaches the formatting rule
as the string `"45.7"` and integer coercion fails. -/
theorem c3_padding_cex :
    parse_excel_to_json
        (ExcelFile.ok ⟨["Artículo ID"], [[Value.float 45 "45.7"]]⟩)
        none (some "mermasventas") false =
      some [[("n", Value.int 1), ("Artículo ID", Value.str "45.7")]] ∧
      ("45.7" : String) ≠ "000000000000000045" :=
  ⟨by decide, by decide⟩

/-- Claim C3, amended: under `'mermasventas'`, a non-null `Artículo ID`
cell behaves as follows.  A cell read as a Python int is zero-padded to
18 characters (numeric `45` becomes `"000000000000000045"`).  Because the
string dtype applies when the raw header is exactly `"Artículo ID"`, a
float cell arrives as its decimal string, integer coercion fails, and the
trimmed string with the fractional part intact is emitted; the fractional
part is dropped and padded only when the raw header carries extra
whitespace, so that the float reaches the rule unconverted.  A string
cell is padded when Python `int()` accepts it, else emitted as the
trimmed string.  Under kind `'catalogados'` the universal numeric/string
rule applies with no padding. -/
theorem c3_padding_amended :
    (∀ n : Int, processCell (some "mermasventas") "Artículo ID" (Value.int n) =
        Value.str (pad18 n)) ∧
      (∀ (t : Int) (r : String), pyIntOfString r = none → r ≠ "nan" →
        processCell (some "mermasventas") "Artículo ID" (Value.float t r) =
          Value.str (pyStrip r)) ∧
      (∀ (t : Int) (r : String),
        processCell (some "mermasventas") "Artículo ID " (Value.float t r) =
          Value.str (pad18 t)) ∧
      (∀ s : String, s ∉ defaultNaValues → s ≠ "nan" →
        processCell (some "mermasventas") "Artículo ID" (Value.str s) =
          (match pyIntOfString s with
            | some m => Value.str (pad18 m)
            | none => Value.str (pyStrip s))) ∧
      (∀ n : Int, processCell (some "catalogados") "Artículo ID" (Value.int n) =
        Value.int n) ∧
      (convertSheet (some "mermasventas") ⟨["Artículo ID"], [[Value.int 45]]⟩ =
        [[("n", Value.int 1), ("Artículo ID", Value.str "000000000000000045")]]) ∧
      (convertSheet (some "catalogados") ⟨["Artículo ID"], [[Value.int 45]]⟩ =
        [[("n", Value.int 1), ("Artículo ID", Value.int 45)]]) := by
  refine ⟨fun n => ?_, fun t r hr hrnan => ?_, fun t r => rfl, fun s hs hsnan => ?_,
    fun n => rfl, by decide, by decide⟩
  · have h1 : processCell (some "mermasventas") "Artículo ID" (Value.int n) =
        transformCell "Artículo ID" (some "mermasventas")
          (Value.str (toString n)) := rfl
    rw [h1, transformCell_mermas_id_str (toString n) (toString_int_ne_nan n),
      pyIntOfString_toString n]
  · have h1 : processCell (some "mermasventas") "Artículo ID" (Value.float t r) =
        transformCell "Artículo ID" (some "mermasventas") (Value.str r) := rfl
    rw [h1, transformCell_mermas_id_str r hrnan, hr]
  · have h1 : processCell (some "mermasventas") "Artículo ID" (Value.str s) =
        transformCell "Artículo ID" (some "mermasventas")
          (readCell true (Value.str s)) := rfl
    rw [h1]
    simp only [readCell]
    rw [if_neg hs]
    exact transformCell_mermas_id_str s hsnan

/-- Witness for C3 (amended), float conjunct at `45.7`. -/
theorem c3_padding_witness :
    processCell (some "mermasventas") "Artículo ID" (Value.float 45 "45.7") =
      Value.str (pyStrip "45.7") :=
  c3_padding_amended.2.1 45 "45.7" (by decide) (by decide)

/-- Claim C7, counterexample: the string cell `"  nan  "` survives
pandas' exact-match NA conversion, is not caught by the `== 'nan'` check,
and is emitted as the literal string `"nan"` — so an emitted value can be
the literal string `"nan"`. -/
theorem c7_null_normalization_cex :
    parse_excel_to_json (ExcelFile.ok ⟨["Col"], [[Value.str "  nan  "]]⟩)
        none none false =
      some [[("n", Value.int 1), ("Col", Value.str "nan")]] := by decide

/-- Claim C7, amended: every NA cell — the empty/NaN sentinel, or a
string cell exactly equal to one of pandas' default NA tokens (among them
`"nan"`, `"None"`, `"null"`) — is emitted as null; and a string cell is
only ever emitted as null, its stripped form, or a zero-padded integer
rendering, so the literal strings `"nan"`, `"None"` and `"null"` can be
emitted only as the stripped form of a source string that trims to such a
token without matching it exactly (e.g. `"  nan  "`). -/
theorem c7_null_normalization_amended :
    (∀ (rt : Option String) (rawCol : String) (v : Value),
        (v = Value.na ∨ ∃ s, v = Value.str s ∧ s ∈ defaultNaValues) →
          processCell rt rawCol v = Value.na) ∧
      (∀ (rt : Option String) (rawCol : String) (s : String),
        processCell rt rawCol (Value.str s) = Value.na ∨
          processCell rt rawCol (Value.str s) = Value.str (pyStrip s) ∨
          ∃ m : Int, processCell rt rawCol (Value.str s) = Value.str (pad18 m)) := by
  constructor
  · rintro rt rawCol v (rfl | ⟨s, rfl, hs⟩)
    · rfl
    · have h1 : processCell rt rawCol (Value.str s) =
          transformCell (pyStrip rawCol) rt
            (readCell ((stringColumns rt).contains rawCol) (Value.str s)) := rfl
      rw [h1]
      simp only [readCell]
      rw [if_pos hs]
      rfl
  · intro rt rawCol s
    have h1 : processCell rt rawCol (Value.str s) =
        transformCell (pyStrip rawCol) rt
          (readCell ((stringColumns rt).contains rawCol) (Value.str s)) := rfl
    rw [h1]
    simp only [readCell]
    by_cases hs : s ∈ defaultNaValues
    · rw [if_pos hs]
      exact Or.inl rfl
    · rw [if_neg hs]
      exact transformCell_str_cases (pyStrip rawCol) rt s

/-- Witness for C7 (amended): the exact NA token `"None"` is emitted as
null. -/
theorem c7_null_normalization_witness :
    processCell none "Cantidad" (Value.str "None") = Value.na :=
  c7_null_normalization_amended.1 none "Cantidad" (Value.str "None")
    (Or.inr ⟨"None", rfl, by decide⟩)

/-- Claim C4: a first data row whose first-column value, stripped and
lowercased, equals exactly `"total"` is dropped before any sequence
numbering (the numbering then starts at the next row, so the dropped row
consumes no `n` value); a first row reading `"Total Sales"` or
`"  subtotal"` is NOT dropped; at most one row is ever dropped, and only
the row at the very start is ever considered. -/
theorem c4_total_row_drop :
    (∀ (row : List Value) (rest : List (List Value)),
        firstCellToken row = "total" → dropTotal (row :: rest) = rest) ∧
      (∀ (row : List Value) (rest : List (List Value)),
        firstCellToken row ≠ "total" → dropTotal (row :: rest) = row :: rest) ∧
      (∀ (row : List Value) (rest : List (List Value)),
        dropTotal (row :: rest) = rest ∨ dropTotal (row :: rest) = row :: rest) ∧
      (dropTotal [[Value.str "Total Sales"]] = [[Value.str "Total Sales"]]) ∧
      (dropTotal [[Value.str "  subtotal"]] = [[Value.str "  subtotal"]]) ∧
      (∀ (rt : Option String) (header : List String) (row : List Value)
          (rest : List (List Value)),
        firstCellToken (readRow rt header row) = "total" →
          convertSheet rt ⟨header, row :: rest⟩ =
            convertRows rt (header.map pyStrip) 0 (rest.map (readRow rt header))) := by
  refine ⟨fun row rest h => ?_, fun row rest h => ?_, fun row rest => ?_,
    by decide, by decide, fun rt header row rest h => ?_⟩
  · simp [dropTotal, h]
  · simp [dropTotal, beq_iff_eq, h]
  · rcases Bool.eq_false_or_eq_true (firstCellToken row == "total") with hc | hc
    · exact Or.inl (by simp [dropTotal, hc])
    · exact Or.inr (by simp [dropTotal, hc])
  · simp [convertSheet, dropTotal, h]

/-- Witness for C4: a first row reading `" TOTAL "` is dropped. -/
theorem c4_total_row_drop_witness :
    dropTotal [[Value.str " TOTAL ", Value.int 100], [Value.str "Lunes"]] =
      [[Value.str "Lunes"]] :=
  c4_total_row_drop.1 [Value.str " TOTAL ", Value.int 100]
    [[Value.str "Lunes"]] (by decide)

/-- Claim C5: for every input, the emitted sequence has exactly as many
records as there are data rows after the total-row drop, and the records
start with the synthetic field `n` taking the values `1..N` in order. -/
theorem c5_sequencing (rt : Option String) (sheet : Sheet) :
    (convertSheet rt sheet).length =
        (dropTotal (sheet.rows.map (readRow rt sheet.header))).length ∧
      (convertSheet rt sheet).map List.head? =
        (List.range (dropTotal (sheet.rows.map (readRow rt sheet.header))).length).map
          (fun (j : Nat) => some (("n", Value.int ((j : Int) + 1)))) := by
  constructor
  · simpa [convertSheet] using
      convertRows_length rt (sheet.header.map pyStrip) 0
        (dropTotal (sheet.rows.map (readRow rt sheet.header)))
  · simpa [convertSheet] using
      convertRows_map_head rt (sheet.header.map pyStrip) 0
        (dropTotal (sheet.rows.map (readRow rt sheet.header)))

/-- Claim C10: a sheet that parses but has no data rows left after the
total-row drop makes `parse_excel_to_json` succeed with the empty list —
a value the route's truthiness test (`if not json_data`) treats exactly
like the failure value `None`, replying with an error in both cases. -/
theorem c10_empty_result_falsy (rt : Option String) (sheet : Sheet)
    (h : dropTotal (sheet.rows.map (readRow rt sheet.header)) = []) :
    parse_excel_to_json (ExcelFile.ok sheet) none rt false = some [] ∧
      routeTreatsAsError (some []) = true ∧
      routeTreatsAsError none = true := by
  refine ⟨?_, rfl, rfl⟩
  simp [parse_excel_to_json, convertSheet, h, convertRows]

/-- Claim C9: every report-type tag other than `'mermasventas'` —
`'catalogados'`, `'stockdetalle'`, any unrecognized tag, or no tag —
produces exactly the record sequence of the no-tag run, and the
`Artículo` force-string rule behaves identically under every tag. -/
theorem c9_report_kind_equivalence :
    (∀ (rt : Option String) (sheet : Sheet), rt ≠ some "mermasventas" →
        convertSheet rt sheet = convertSheet none sheet) ∧
      (∀ (rt : Option String) (v : Value),
        transformCell "Artículo" rt v = transformCell "Artículo" none v) := by
  constructor
  · intro rt sheet h
    unfold convertSheet
    rw [List.map_congr_left fun r _ => readRow_of_ne h sheet.header r,
      convertRows_of_ne h]
  · intro rt v
    simp [transformCell]

/-- Witness for C9: a `'catalogados'` run equals the no-tag run on a
concrete sheet. -/
theorem c9_report_kind_equivalence_witness :
    convertSheet (some "catalogados")
        ⟨["Artículo", "Cantidad"], [[Value.str "00012", Value.int 5]]⟩ =
      convertSheet none
        ⟨["Artículo", "Cantidad"], [[Value.str "00012", Value.int 5]]⟩ :=
  c9_report_kind_equivalence.1 (some "catalogados")
    ⟨["Artículo", "Cantidad"], [[Value.str "00012", Value.int 5]]⟩ (by decide)

/-- Claim C8: under the conditions that make the Python dict model exact
(rectangular sheet, pairwise-distinct stripped column names, none of them
`"n"` — duplicate labels would make the row lookup raise and an `"n"`
column would overwrite the sequence field), every emitted record's key
list is exactly `"n"` followed by the source columns in source order with
surrounding whitespace stripped. -/
theorem c8_key_order (rt : Option String) (sheet : Sheet)
    (hrect : ∀ row ∈ sheet.rows, row.length = sheet.header.length)
    (_hnodup : (sheet.header.map pyStrip).Nodup)
    (_hn : "n" ∉ sheet.header.map pyStrip) :
    ∀ rec ∈ convertSheet rt sheet,
      rec.map Prod.fst = "n" :: sheet.header.map pyStrip := by
  intro rec hrec
  simp only [convertSheet] at hrec
  obtain ⟨j, row, hrow, rfl⟩ := mem_convertRows hrec
  obtain ⟨r0, hr0, rfl⟩ := List.mem_map.mp (mem_dropTotal hrow)
  have hlen : (sheet.header.map pyStrip).length ≤
      (readRow rt sheet.header r0).length := by
    rw [readRow_length, hrect r0 hr0, Nat.min_self, List.length_map]
  simp only [mkRecord, List.map_cons, List.map_map]
  congr 1
  have hcomp : ((sheet.header.map pyStrip).zip (readRow rt sheet.header r0)).map
        (Prod.fst ∘ fun cv => (cv.1, transformCell cv.1 rt cv.2)) =
      ((sheet.header.map pyStrip).zip (readRow rt sheet.header r0)).map Prod.fst :=
    List.map_congr_left fun cv _ => rfl
  rw [hcomp, List.map_fst_zip _ _ hlen]

/-- Witness for C8 at a concrete two-column sheet with padded headers. -/
theorem c8_key_order_witness :
    ([("n", Value.int 1), ("Día", Value.str "x"), ("Cantidad", Value.int 7)] :
        Record).map Prod.fst =
      "n" :: [" Día ", "Cantidad"].map pyStrip :=
  c8_key_order none ⟨[" Día ", "Cantidad"], [[Value.str "x", Value.int 7]]⟩
    (by decide) (by decide) (by decide)
    [("n", Value.int 1), ("Día", Value.str "x"), ("Cantidad", Value.int 7)]
    (by decide)

/-- Claim C6: under every report kind, an `Artículo` cell is emitted
either as null (when the source cell is the NA sentinel) or as the
stripped string form of the cell — never as a number — and the source
string `"00012"` is emitted as the string `"00012"`, leading zeros
preserved. -/
theorem c6_articulo_string :
    (∀ (rt : Option String) (sheet : Sheet), ∀ rec ∈ convertSheet rt sheet,
        ∀ p ∈ rec, p.1 = "Artículo" →
          p.2 = Value.na ∨ ∃ w : Value, p.2 = Value.str (pyStrip (pyStr w))) ∧
      (∀ rt : Option String,
        convertSheet rt ⟨["Artículo"], [[Value.str "00012"]]⟩ =
          [[("n", Value.int 1), ("Artículo", Value.str "00012")]]) := by
  constructor
  · intro rt sheet rec hrec p hp hfst
    simp only [convertSheet] at hrec
    obtain ⟨j, row, hrow, rfl⟩ := mem_convertRows hrec
    simp only [mkRecord, List.mem_cons] at hp
    rcases hp with rfl | hp
    · simp at hfst
    · obtain ⟨cv, hcv, rfl⟩ := List.mem_map.mp hp
      dsimp only at hfst ⊢
      rw [hfst]
      rcases transformCell_articulo rt cv.2 with h1 | h1
      · exact Or.inl h1
      · exact Or.inr ⟨cv.2, h1⟩
  · intro rt
    by_cases h : rt = some "mermasventas"
    · subst h; decide
    · unfold convertSheet
      rw [List.map_congr_left fun r _ => readRow_of_ne h _ r, convertRows_of_ne h]
      decide

/-- Witness for C6: the emitted `Artículo` value of the `"00012"` sheet
is a stripped string. -/
theorem c6_articulo_string_witness :
    (("Artículo", Value.str "00012") : String × Value).2 = Value.na ∨
      ∃ w : Value, (("Artículo", Value.str "00012") : String × Value).2 =
        Value.str (pyStrip (pyStr w)) :=
  c6_articulo_string.1 none ⟨["Artículo"], [[Value.str "00012"]]⟩
    [("n", Value.int 1), ("Artículo", Value.str "00012")] (by decide)
    ("Artículo", Value.str "00012") (by decide) rfl

/-- Witness for C10 at a sheet whose only data row is a dropped Total
row. -/
theorem c10_empty_result_falsy_witness :
    parse_excel_to_json (ExcelFile.ok ⟨["Día"], [[Value.str "Total"]]⟩) none
        (some "mermasventas") false = some [] ∧
      routeTreatsAsError (some []) = true ∧
      routeTreatsAsError none = true :=
  c10_empty_result_falsy (some "mermasventas") ⟨["Día"], [[Value.str "Total"]]⟩
    (by decide)

end ScrapTool
